import Mathlib

/-!
Shallow embedding of `src/server.js` (the enhanced GitHub Contributors Badge
service: the claims reference the second, enhanced copy of the server in that
file).  Pure computations (repo-id validation, JS `parseInt`, the avatar
fallback pattern, the SVG renderer geometry and markup) are translated
directly; the asynchronous upstream HTTP calls are modelled by oracles in an
`Env` record, and the module-level mutable `cache` `Map` is threaded
explicitly as a function-typed store.  Handlers additionally report ghost
observation counters (`Effects`): how many upstream calls were made, how many
cache lookups happened, and which argument lists were passed to the renderer,
so that "rejected before any cache access or upstream call" and "the style
actually passed to the renderer" become provable statements.
-/

namespace ContribBadge

/-- One raw contributor object as returned by the GitHub contributors API
(the fields the server reads: `login`, `avatar_url`, `html_url`,
`contributions`). -/
structure RawContributor where
  login : String
  avatar_url : String
  html_url : String
  contributions : Nat
  deriving Repr, DecidableEq

/-- Result of `generateAvatarPattern(username, index)` in `src/server.js`
(lines 724-739): a deterministic placeholder colour, glyph and pattern id. -/
structure FallbackPattern where
  color : String
  initial : String
  patternId : String
  deriving Repr, DecidableEq

/-- The fixed 15-colour palette `colors` of `generateAvatarPattern`. -/
def avatarColors : List String :=
  ["#FF6B6B", "#4ECDC4", "#45B7D1", "#96CEB4", "#FFEAA7",
   "#DDA0DD", "#98D8C8", "#FFB6C1", "#87CEEB", "#DEB887",
   "#F0E68C", "#FFE4B5", "#D3D3D3", "#B0C4DE", "#FFA07A"]

/-- JS `username.charAt(0).toUpperCase()`: uppercased first character of the
string, or the empty string when the string is empty. -/
def jsCharAt0Upper (s : String) : String :=
  match s.data with
  | [] => ""
  | c :: _ => String.mk [c.toUpper]

/-- `generateAvatarPattern` (src/server.js lines 724-739): colour selected
from the fixed palette by `index % colors.length`, glyph is the uppercased
first character of the username. -/
def generateAvatarPattern (username : String) (index : Nat) : FallbackPattern :=
  let color := avatarColors.getD (index % avatarColors.length) ""
  let initial := jsCharAt0Upper username
  { color := color, initial := initial, patternId := "pattern-" ++ toString index }

/-- One processed contributor record as built by `getContributors` /
`getAllContributors` (the object literal at src/server.js lines 774-781 and
866-873). -/
structure Contributor where
  login : String
  avatar_url : String
  avatar_base64 : Option String
  html_url : String
  contributions : Nat
  fallback : FallbackPattern
  deriving Repr, DecidableEq

/-- Builds one processed record from a raw one.  `withAvatar` is the condition
under which `getBase64Avatar` is attempted (`includeAvatars` for the bounded
fetch; `includeAvatars && globalIndex < 50` for the unbounded fetch); the
avatar oracle returns `none` exactly when that secondary fetch fails (the JS
`getBase64Avatar` catches its own errors and returns `null`). -/
def processContributor (avatarOracle : String → Option String) (withAvatar : Bool)
    (index : Nat) (c : RawContributor) : Contributor :=
  { login := c.login
    avatar_url := c.avatar_url
    avatar_base64 := if withAvatar then avatarOracle c.avatar_url else none
    html_url := c.html_url
    contributions := c.contributions
    fallback := generateAvatarPattern c.login index }

/-- An axios failure as observed by the catch blocks: either an HTTP status
(`error.response?.status`) or a transport failure with no response. -/
inductive UpstreamFailure where
  | status (code : Nat)
  | network
  deriving Repr, DecidableEq

/-- The error-message mapping shared by the catch blocks of `getContributors`
(lines 791-803) and `getAllContributors` (lines 886-898): 404, 403 and 401
get dedicated `Error` messages, everything else the generic one. -/
def mapFetchError (f : UpstreamFailure) : String :=
  match f with
  | .status c =>
    if c == 404 then "Repository not found"
    else if c == 403 then "API rate limit exceeded"
    else if c == 401 then "Authentication failed"
    else "Failed to fetch contributors"
  | .network => "Failed to fetch contributors"

/-- `CACHE_DURATION = 5 * 60 * 1000` milliseconds (src/server.js line 697). -/
def CACHE_DURATION : Nat := 5 * 60 * 1000

/-- One cache entry: the processed contributor list plus the `Date.now()`
timestamp recorded at `cache.set`. -/
structure CacheEntry where
  data : List Contributor
  timestamp : Nat
  deriving DecidableEq

/-- The module-level `cache : Map<string, CacheEntry>` modelled as a total
lookup function. -/
def Cache : Type := String → Option CacheEntry

/-- The always-empty cache (fresh process state). -/
def emptyCache : Cache := fun _ => none

/-- `cache.set(key, entry)`: overwrite/insert unconditionally. -/
def cacheSet (c : Cache) (key : String) (e : CacheEntry) : Cache :=
  fun k => if k = key then some e else c k

/-- Environment of external effects: the bounded contributors call (indexed by
the `per_page` value sent), the paginated contributors call (indexed by page
number), the avatar fetch oracle, the repository-metadata call used by
`/repo-info`, and the current value of `Date.now()`. -/
structure Env where
  bounded : Nat → Except UpstreamFailure (List RawContributor)
  pages : Nat → Except UpstreamFailure (List RawContributor)
  avatars : String → Option String
  repoMeta : Except UpstreamFailure Unit
  now : Nat

/-- Renders a Bool the way a JS template literal renders a boolean. -/
def boolStr (b : Bool) : String := if b then "true" else "false"

/-- Cache key of the bounded fetch: `` `${repo}-${limit}-${includeAvatars}` ``
(src/server.js line 743). -/
def contributorsCacheKey (repo : String) (limit : Nat) (includeAvatars : Bool) : String :=
  repo ++ "-" ++ toString limit ++ "-" ++ boolStr includeAvatars

/-- Cache key of the unbounded fetch: `` `${repo}-all-${includeAvatars}` ``
(src/server.js line 808). -/
def allCacheKey (repo : String) (includeAvatars : Bool) : String :=
  repo ++ "-all-" ++ boolStr includeAvatars

/-- Outcome of a fetch helper: the thrown-or-returned value, the cache after
the call, the number of upstream contributor-listing requests issued, and the
number of cache lookups performed (ghost observation). -/
structure FetchOut where
  result : Except String (List Contributor)
  cache : Cache
  calls : Nat
  reads : Nat

/-- `getContributors(repo, limit, includeAvatars)` (src/server.js lines
742-804).  Serves a cache entry younger than `CACHE_DURATION`, otherwise
issues one upstream call with `per_page = Math.min(limit, 100)`, processes
each contributor (optionally inlining its avatar), stores the result with the
current timestamp and returns it; an upstream failure is translated by
`mapFetchError` and nothing is cached. -/
def getContributors (env : Env) (repo : String) (limit : Nat) (includeAvatars : Bool)
    (cache : Cache) : FetchOut :=
  let cacheKey := contributorsCacheKey repo limit includeAvatars
  let hit : Option (List Contributor) :=
    match cache cacheKey with
    | some entry =>
      if env.now - entry.timestamp < CACHE_DURATION then some entry.data else none
    | none => none
  match hit with
  | some data => { result := .ok data, cache := cache, calls := 0, reads := 1 }
  | none =>
    match env.bounded (min limit 100) with
    | .error f => { result := .error (mapFetchError f), cache := cache, calls := 1, reads := 1 }
    | .ok raws =>
      let contributors :=
        raws.mapIdx (fun index c => processContributor env.avatars includeAvatars index c)
      { result := .ok contributors
        cache := cacheSet cache cacheKey { data := contributors, timestamp := env.now }
        calls := 1
        reads := 1 }

/-- The pagination `while (hasMore)` loop of `getAllContributors`
(src/server.js lines 829-848), returning the accumulated raw contributors and
the number of page requests issued.  The loop body: request page `page`; an
empty page clears `hasMore`; a non-empty page is appended and `page`
incremented; `if (page > 100) break` bounds the loop.  The structural `fuel`
argument is the ghost measure `101 - page` (the canonical call is
`getAllLoop pages 100 1 [] 0`), so the `fuel = 0` base case is unreachable:
the `page + 1 > 100` test fires first, exactly as the source's break does. -/
def getAllLoop (pages : Nat → Except UpstreamFailure (List RawContributor)) :
    Nat → Nat → List RawContributor → Nat →
    Except UpstreamFailure (List RawContributor) × Nat
  | 0, _, acc, calls => (.ok acc, calls)
  | fuel + 1, page, acc, calls =>
    match pages page with
    | .error f => (.error f, calls + 1)
    | .ok resp =>
      if resp.length = 0 then (.ok acc, calls + 1)
      else if page + 1 > 100 then (.ok (acc ++ resp), calls + 1)
      else getAllLoop pages fuel (page + 1) (acc ++ resp) (calls + 1)

/-- `getAllContributors(repo, includeAvatars)` (src/server.js lines 807-899).
Cache check as in `getContributors`; on a miss the pagination loop runs, the
accumulated raw contributors are processed (avatars only attempted for
`includeAvatars && globalIndex < 50`; the batching in groups of 10 only
schedules the avatar fetches and produces the same list as a direct indexed
map), and the result is stored with the current timestamp. -/
def getAllContributors (env : Env) (repo : String) (includeAvatars : Bool)
    (cache : Cache) : FetchOut :=
  let cacheKey := allCacheKey repo includeAvatars
  let hit : Option (List Contributor) :=
    match cache cacheKey with
    | some entry =>
      if env.now - entry.timestamp < CACHE_DURATION then some entry.data else none
    | none => none
  match hit with
  | some data => { result := .ok data, cache := cache, calls := 0, reads := 1 }
  | none =>
    match getAllLoop env.pages 100 1 [] 0 with
    | (.error f, calls) =>
      { result := .error (mapFetchError f), cache := cache, calls := calls, reads := 1 }
    | (.ok raws, calls) =>
      let processed :=
        raws.mapIdx (fun i c =>
          processContributor env.avatars (includeAvatars && decide (i < 50)) i c)
      { result := .ok processed
        cache := cacheSet cache cacheKey { data := processed, timestamp := env.now }
        calls := calls
        reads := 1 }

/-! ## The SVG renderer (`generateSVGBadge`, src/server.js lines 902-1088) -/

/-- `avatarSize = 40`. -/
def avatarSize : Nat := 40

/-- `padding = 12`. -/
def padding : Nat := 12

/-- `usernameHeight = 16`. -/
def usernameHeight : Nat := 16

/-- `spacing = 6`. -/
def spacing : Nat := 6

/-- `minItemWidth = 70`. -/
def minItemWidth : Nat := 70

/-- One theme palette of `generateSVGBadge`. -/
structure ThemeColors where
  bg : String
  border : String
  text : String
  shadow : String
  hover : String
  fallbackText : String
  deriving Repr, DecidableEq

/-- The `light` palette. -/
def lightTheme : ThemeColors :=
  { bg := "#ffffff", border := "#e1e4e8", text := "#586069",
    shadow := "rgba(0,0,0,0.1)", hover := "rgba(3,102,214,0.1)",
    fallbackText := "#ffffff" }

/-- The `dark` palette. -/
def darkTheme : ThemeColors :=
  { bg := "#161b22", border := "#30363d", text := "#8b949e",
    shadow := "rgba(0,0,0,0.3)", hover := "rgba(56,139,253,0.1)",
    fallbackText := "#ffffff" }

/-- `themes[theme] || themes.light`: unknown theme names fall back to light. -/
def themeColors (theme : String) : ThemeColors :=
  if theme == "light" then lightTheme
  else if theme == "dark" then darkTheme
  else lightTheme

/-- Mathematical ceiling of the square root on naturals.  This is the exact
value of JS `Math.ceil(Math.sqrt(n))` for every list length arising here
(double-precision sqrt is exact on perfect squares and correctly rounded far
below the 2^52 range). -/
def ceilSqrt (n : Nat) : Nat :=
  if Nat.sqrt n * Nat.sqrt n = n then Nat.sqrt n else Nat.sqrt n + 1

/-- Grid layout: `cols = Math.ceil(Math.sqrt(contributors.length))`. -/
def gridCols (n : Nat) : Nat := ceilSqrt n

/-- Grid layout: `itemWidth = Math.max(avatarSize + padding, minItemWidth)`. -/
def gridItemWidth : Nat := max (avatarSize + padding) minItemWidth

/-- Grid layout: `itemHeight = avatarSize + usernameHeight + spacing + padding`. -/
def gridItemHeight : Nat := avatarSize + usernameHeight + spacing + padding

/-- Grid layout: `rows = Math.ceil(contributors.length / cols)` (Nat
ceiling-division; the handlers guarantee `n > 0`, the only case where the JS
float division is a number). -/
def gridRows (n : Nat) : Nat := (n + gridCols n - 1) / gridCols n

/-- Grid canvas width `cols * itemWidth + padding`. -/
def gridWidth (n : Nat) : Nat := gridCols n * gridItemWidth + padding

/-- Grid canvas height `rows * itemHeight + padding`. -/
def gridHeight (n : Nat) : Nat := gridRows n * gridItemHeight + padding

/-- Grid x-coordinate of item `i`: `(index % cols) * itemWidth + padding`. -/
def gridX (n i : Nat) : Nat := (i % gridCols n) * gridItemWidth + padding

/-- Grid y-coordinate of item `i`: `Math.floor(index / cols) * itemHeight + padding`. -/
def gridY (n i : Nat) : Nat := (i / gridCols n) * gridItemHeight + padding

/-- Horizontal layout `itemWidth` (same expression as the grid one). -/
def horizItemWidth : Nat := max (avatarSize + padding) minItemWidth

/-- Horizontal canvas width `contributors.length * itemWidth + padding`. -/
def horizWidth (n : Nat) : Nat := n * horizItemWidth + padding

/-- Horizontal canvas height `avatarSize + usernameHeight + spacing + padding * 2`. -/
def horizHeight : Nat := avatarSize + usernameHeight + spacing + padding * 2

/-- Horizontal x-coordinate of item `i`: `index * itemWidth + padding`. -/
def horizX (i : Nat) : Nat := i * horizItemWidth + padding

/-- `maxUsernameLength = 8`. -/
def maxUsernameLength : Nat := 8

/-- The displayed (possibly truncated) username: longer than 8 characters is
cut to its first 8 characters followed by `"..."`. -/
def displayName (login : String) : String :=
  if login.length > maxUsernameLength then login.take maxUsernameLength ++ "..."
  else login

/-- The avatar element of one contributor: an `<image>` with the inlined
base64 data when present, otherwise the fallback coloured circle plus
single-character glyph (src/server.js lines 954-966 / 994-1004). -/
def avatarElement (colors : ThemeColors) (c : Contributor) (index x y : Nat) : String :=
  match c.avatar_base64 with
  | some data =>
    let w := avatarSize
    s!"<image href=\"{data}\" x=\"{x}\" y=\"{y}\" width=\"{w}\" height=\"{w}\" clip-path=\"url(#clip{index})\" class=\"avatar-image\"/>"
  | none =>
    let cx := x + avatarSize / 2
    let cy := y + avatarSize / 2
    let r := avatarSize / 2
    let ty := y + avatarSize / 2 + 5
    let fill := c.fallback.color
    let ft := colors.fallbackText
    let ini := c.fallback.initial
    s!"<circle cx=\"{cx}\" cy=\"{cy}\" r=\"{r}\" fill=\"{fill}\" class=\"avatar-fallback\"/><text x=\"{cx}\" y=\"{ty}\" text-anchor=\"middle\" font-family=\"-apple-system, BlinkMacSystemFont, \x27Segoe UI\x27, Roboto, sans-serif\" font-size=\"18\" font-weight=\"bold\" fill=\"{ft}\" class=\"avatar-initial\">{ini}</text>"

/-- One full contributor group element (border ring, hover circle, avatar,
username label wrapped in a link), as spliced into `contributorElements`. -/
def contributorElement (colors : ThemeColors) (c : Contributor) (index x y : Nat) : String :=
  let cx := x + avatarSize / 2
  let cy := y + avatarSize / 2
  let rb := avatarSize / 2 + 2
  let r := avatarSize / 2
  let border := colors.border
  let av := avatarElement colors c index x y
  let uy := y + avatarSize + spacing + 12
  let tc := colors.text
  let dn := displayName c.login
  let login := c.login
  let url := c.html_url
  s!"<g class=\"contributor\" data-username=\"{login}\"><a href=\"{url}\" target=\"_blank\"><circle cx=\"{cx}\" cy=\"{cy}\" r=\"{rb}\" fill=\"{border}\" class=\"avatar-border\"/><circle cx=\"{cx}\" cy=\"{cy}\" r=\"{r}\" fill=\"transparent\" class=\"avatar-hover\"/>{av}<text x=\"{cx}\" y=\"{uy}\" text-anchor=\"middle\" font-family=\"-apple-system, BlinkMacSystemFont, \x27Segoe UI\x27, Roboto, sans-serif\" font-size=\"11\" fill=\"{tc}\" class=\"username\">{dn}</text></a></g>"

/-- The concatenated contributor elements of the grid branch (placement
row-major at `gridX`/`gridY`). -/
def gridContributorElements (colors : ThemeColors) (contributors : List Contributor) : String :=
  let n := contributors.length
  String.join (contributors.mapIdx (fun index c =>
    contributorElement colors c index (gridX n index) (gridY n index)))

/-- The concatenated contributor elements of the horizontal branch
(placement left-to-right at `horizX`, `y = padding`). -/
def horizContributorElements (colors : ThemeColors) (contributors : List Contributor) : String :=
  String.join (contributors.mapIdx (fun index c =>
    contributorElement colors c index (horizX index) padding))

/-- One `<clipPath>` per contributor index. -/
def clipPathFor (index : Nat) : String :=
  let r := avatarSize / 2
  s!"<clipPath id=\"clip{index}\"><circle cx=\"{r}\" cy=\"{r}\" r=\"{r}\"/></clipPath>"

/-- All clip paths (the source maps over the contributor list using only the
index). -/
def clipPaths (n : Nat) : String :=
  String.join ((List.range n).map clipPathFor)

/-- The `<defs>` block: clip paths plus the two drop-shadow filters. -/
def defsBlock (colors : ThemeColors) (n : Nat) : String :=
  let cp := clipPaths n
  let sh := colors.shadow
  s!"<defs>{cp}<filter id=\"shadow\"><feDropShadow dx=\"0\" dy=\"2\" stdDeviation=\"3\" flood-color=\"{sh}\"/></filter><filter id=\"avatarShadow\"><feDropShadow dx=\"0\" dy=\"1\" stdDeviation=\"2\" flood-color=\"{sh}\"/></filter></defs>"

/-- The constant CSS block of the badge (hover styles; `\x7b`/`\x7d` are the
literal braces of the CSS source). -/
def svgStyleBlock (colors : ThemeColors) : String :=
  let hover := colors.hover
  s!"<style><![CDATA[ .contributor \x7b cursor: pointer; transition: all 0.2s ease; \x7d .contributor:hover .avatar-hover \x7b fill: {hover}; \x7d .contributor:hover .username \x7b fill: #0366d6; font-weight: 600; \x7d .contributor:hover .avatar-border \x7b stroke: #0366d6; stroke-width: 2; \x7d .contributor:hover .avatar-image \x7b filter: url(#avatarShadow); \x7d .contributor:hover .avatar-fallback \x7b filter: url(#avatarShadow); \x7d .avatar-image \x7b transition: filter 0.2s ease; \x7d .avatar-fallback \x7b transition: filter 0.2s ease; \x7d .avatar-border \x7b transition: all 0.2s ease; \x7d .username \x7b pointer-events: none; user-select: none; transition: all 0.2s ease; \x7d .avatar-initial \x7b pointer-events: none; user-select: none; \x7d ]]></style>"

/-- `generateSVGBadge(contributors, style, theme)` (src/server.js lines
902-1088): grid branch when `style === 'grid'`, otherwise the horizontal
branch; canvas dimensions and placements as computed by the helpers above
(inter-element whitespace of the JS template literals is normalised away). -/
def generateSVGBadge (contributors : List Contributor) (style theme : String) : String :=
  let colors := themeColors theme
  let n := contributors.length
  let width := if style == "grid" then gridWidth n else horizWidth n
  let height := if style == "grid" then gridHeight n else horizHeight
  let elements :=
    if style == "grid" then gridContributorElements colors contributors
    else horizContributorElements colors contributors
  let d := defsBlock colors n
  let st := svgStyleBlock colors
  let bg := colors.bg
  let border := colors.border
  s!"<svg width=\"{width}\" height=\"{height}\" xmlns=\"http://www.w3.org/2000/svg\" xmlns:xlink=\"http://www.w3.org/1999/xlink\">{d}{st}<rect width=\"{width}\" height=\"{height}\" fill=\"{bg}\" stroke=\"{border}\" stroke-width=\"1\" rx=\"8\" filter=\"url(#shadow)\"/>{elements}</svg>"

/-! ## JS `parseInt` -/

/-- The whitespace skipped by `parseInt` before the number. -/
def isJsSpace (c : Char) : Bool :=
  c = ' ' || c = '\t' || c = '\n' || c = '\r' || c = '\x0b' || c = '\x0c'

/-- Decimal digit value. -/
def decDigitVal (c : Char) : Option Nat :=
  if c.isDigit then some (c.toNat - 48) else none

/-- Hexadecimal digit value. -/
def hexDigitVal (c : Char) : Option Nat :=
  if c.isDigit then some (c.toNat - 48)
  else if 'a' ≤ c && c ≤ 'f' then some (c.toNat - 87)
  else if 'A' ≤ c && c ≤ 'F' then some (c.toNat - 55)
  else none

/-- Value of the longest leading digit run (in the given base); `none` when
there is no leading digit — `parseInt` then yields `NaN`. -/
def leadingDigits (base : Nat) (digit : Char → Option Nat) (cs : List Char) : Option Nat :=
  let ds := cs.takeWhile (fun c => (digit c).isSome)
  if ds.isEmpty then none
  else some (ds.foldl (fun acc c => acc * base + (digit c).getD 0) 0)

/-- JS `parseInt(s)` (radix unspecified): skip leading whitespace, optional
sign, `0x`/`0X` switches to hexadecimal, then the longest digit run is the
value and trailing garbage is ignored; `none` models `NaN`. -/
def parseIntJS (s : String) : Option Int :=
  let cs := s.data.dropWhile isJsSpace
  let signed : Bool × List Char :=
    match cs with
    | '-' :: rest => (true, rest)
    | '+' :: rest => (false, rest)
    | _ => (false, cs)
  let mag : Option Nat :=
    match signed.2 with
    | '0' :: 'x' :: rest => leadingDigits 16 hexDigitVal rest
    | '0' :: 'X' :: rest => leadingDigits 16 hexDigitVal rest
    | rest => leadingDigits 10 decDigitVal rest
  mag.map (fun m => if signed.1 then -(m : Int) else (m : Int))

/-! ## Request handlers -/

/-- JS `String.prototype.split` with a single-character separator, at the
character-list level. -/
def splitCharList (sep : Char) : List Char → List (List Char)
  | [] => [[]]
  | c :: rest =>
    if c = sep then [] :: splitCharList sep rest
    else
      match splitCharList sep rest with
      | [] => [[c]]
      | s :: ss => (c :: s) :: ss

/-- JS `s.split(sep)` for a one-character separator. -/
def jsSplit (sep : Char) (s : String) : List String :=
  (splitCharList sep s.data).map (fun cs => String.mk cs)

/-- The shared repo-id format check of the validating endpoints:
`repo.includes('/') && repo.split('/').length === 2` (the handlers reject
when this is false).  Note this only counts separators; it does not require
the two segments to be non-empty. -/
def validRepoFormat (repo : String) : Bool :=
  repo.data.contains '/' && (jsSplit '/' repo).length == 2

/-- An HTTP response: status code and (possibly abbreviated) body.  For JSON
error bodies only the `error` message is kept; the SVG body is the full
rendered document. -/
structure Response where
  status : Nat
  body : String
  deriving Repr, DecidableEq

/-- One recorded invocation of `generateSVGBadge` (ghost observation). -/
structure RenderCall where
  contributors : List Contributor
  style : String
  theme : String
  deriving Repr, DecidableEq

/-- Ghost observations of one handler run: the cache afterwards, upstream
bounded-fetch calls, page-fetch calls, repo-metadata calls, cache lookups,
and every argument triple passed to the renderer. -/
structure Effects where
  cache : Cache
  boundedCalls : Nat
  pageCalls : Nat
  metaCalls : Nat
  cacheReads : Nat
  renderCalls : List RenderCall

/-- Effects of a handler that returned before touching cache, upstream or
renderer. -/
def noEffects (cache : Cache) : Effects :=
  { cache := cache, boundedCalls := 0, pageCalls := 0, metaCalls := 0,
    cacheReads := 0, renderCalls := [] }

/-- Effects contributed by one unbounded (paginated) fetch. -/
def pageFetchEffects (f : FetchOut) : Effects :=
  { cache := f.cache, boundedCalls := 0, pageCalls := f.calls, metaCalls := 0,
    cacheReads := f.reads, renderCalls := [] }

/-- Effects contributed by one bounded fetch. -/
def boundedFetchEffects (f : FetchOut) : Effects :=
  { cache := f.cache, boundedCalls := f.calls, pageCalls := 0, metaCalls := 0,
    cacheReads := f.reads, renderCalls := [] }

/-- Records one renderer invocation. -/
def withRender (e : Effects) (l : List Contributor) (style theme : String) : Effects :=
  { e with renderCalls := e.renderCalls ++ [⟨l, style, theme⟩] }

/-- The 400 response for a missing (or empty, JS-falsy) `repo` parameter. -/
def requiredRepoResponse : Response :=
  ⟨400, "Repository parameter is required"⟩

/-- The 400 response for a malformed `repo` parameter. -/
def formatRepoResponse : Response :=
  ⟨400, "Repository must be in format \"username/repo-name\""⟩

/-- The error translation of the `/badge` catch block (lines 1140-1152). -/
def badgeErrorResponse (msg : String) : Response :=
  if msg == "Repository not found" then ⟨404, "Repository not found"⟩
  else if msg == "API rate limit exceeded" then
    ⟨429, "API rate limit exceeded. Please try again later."⟩
  else if msg == "Authentication failed" then ⟨401, "GitHub authentication failed"⟩
  else ⟨500, "Failed to generate badge"⟩

/-- The error translation of the `/badge/all` catch block (lines 1186-1196):
note there is no `Authentication failed` branch. -/
def badgeAllErrorResponse (msg : String) : Response :=
  if msg == "Repository not found" then ⟨404, "Repository not found"⟩
  else if msg == "API rate limit exceeded" then
    ⟨429, "API rate limit exceeded. Consider using a GitHub token."⟩
  else ⟨500, "Failed to generate badge with all contributors"⟩

/-- The error translation of the `/badge/fast` catch block (lines 1240-1250):
again no `Authentication failed` branch. -/
def badgeFastErrorResponse (msg : String) : Response :=
  if msg == "Repository not found" then ⟨404, "Repository not found"⟩
  else if msg == "API rate limit exceeded" then
    ⟨429, "API rate limit exceeded. Please try again later."⟩
  else ⟨500, "Failed to generate badge"⟩

/-- The error translation of the `/stats` catch block (lines 1282-1292):
no `Authentication failed` branch. -/
def statsErrorResponse (msg : String) : Response :=
  if msg == "Repository not found" then ⟨404, "Repository not found"⟩
  else if msg == "API rate limit exceeded" then ⟨429, "API rate limit exceeded"⟩
  else ⟨500, "Failed to fetch repository stats"⟩

/-- `GET /badge` (src/server.js lines 1091-1153).  Defaults `limit = 10`,
`style = horizontal`, `theme = light`, `avatars = true`; validates repo
presence/format and style/theme; `limit === 'all'` dispatches to the
unbounded fetch with auto-escalation to grid above 20 contributors, any other
limit must `parseInt` into `[1, 100]` and dispatches to the bounded fetch
with no escalation; an empty contributor list is 404, otherwise the SVG is
rendered. -/
def badgeHandler (env : Env) (cache : Cache)
    (repo limit style theme avatars : Option String) : Response × Effects :=
  let limitS := limit.getD "10"
  let styleS := style.getD "horizontal"
  let themeS := theme.getD "light"
  let avatarsS := avatars.getD "true"
  match repo with
  | none => (requiredRepoResponse, noEffects cache)
  | some repoS =>
    if repoS == "" then (requiredRepoResponse, noEffects cache)
    else if !validRepoFormat repoS then (formatRepoResponse, noEffects cache)
    else if !(styleS == "horizontal" || styleS == "grid") then
      (⟨400, "Style must be \"horizontal\" or \"grid\""⟩, noEffects cache)
    else if !(themeS == "light" || themeS == "dark") then
      (⟨400, "Theme must be \"light\" or \"dark\""⟩, noEffects cache)
    else
      let includeAvatars := !(avatarsS == "false")
      if limitS == "all" then
        let f := getAllContributors env repoS includeAvatars cache
        match f.result with
        | .error msg => (badgeErrorResponse msg, pageFetchEffects f)
        | .ok contributors =>
          if contributors.length == 0 then
            (⟨404, "No contributors found"⟩, pageFetchEffects f)
          else
            let finalStyle :=
              if contributors.length > 20 && styleS == "horizontal" then "grid" else styleS
            (⟨200, generateSVGBadge contributors finalStyle themeS⟩,
             withRender (pageFetchEffects f) contributors finalStyle themeS)
      else
        match parseIntJS limitS with
        | none => (⟨400, "Limit must be between 1 and 100, or \"all\""⟩, noEffects cache)
        | some limitNum =>
          if limitNum < 1 ∨ limitNum > 100 then
            (⟨400, "Limit must be between 1 and 100, or \"all\""⟩, noEffects cache)
          else
            let f := getContributors env repoS limitNum.toNat includeAvatars cache
            match f.result with
            | .error msg => (badgeErrorResponse msg, boundedFetchEffects f)
            | .ok contributors =>
              if contributors.length == 0 then
                (⟨404, "No contributors found"⟩, boundedFetchEffects f)
              else
                (⟨200, generateSVGBadge contributors styleS themeS⟩,
                 withRender (boundedFetchEffects f) contributors styleS themeS)

/-- `GET /badge/all` (src/server.js lines 1156-1197).  Defaults
`style = grid`, `theme = light`, `avatars = true`; only repo validation (no
style/theme check); always the unbounded fetch; above 20 contributors the
style is forced to grid regardless of the requested one. -/
def badgeAllHandler (env : Env) (cache : Cache)
    (repo style theme avatars : Option String) : Response × Effects :=
  let styleS := style.getD "grid"
  let themeS := theme.getD "light"
  let avatarsS := avatars.getD "true"
  match repo with
  | none => (requiredRepoResponse, noEffects cache)
  | some repoS =>
    if repoS == "" then (requiredRepoResponse, noEffects cache)
    else if !validRepoFormat repoS then (formatRepoResponse, noEffects cache)
    else
      let includeAvatars := !(avatarsS == "false")
      let f := getAllContributors env repoS includeAvatars cache
      match f.result with
      | .error msg => (badgeAllErrorResponse msg, pageFetchEffects f)
      | .ok contributors =>
        if contributors.length == 0 then
          (⟨404, "No contributors found"⟩, pageFetchEffects f)
        else
          let finalStyle := if contributors.length > 20 then "grid" else styleS
          (⟨200, generateSVGBadge contributors finalStyle themeS⟩,
           withRender (pageFetchEffects f) contributors finalStyle themeS)

/-- `GET /badge/fast` (src/server.js lines 1200-1251).  Like `/badge` but
avatars are never inlined and there is no style/theme validation. -/
def badgeFastHandler (env : Env) (cache : Cache)
    (repo limit style theme : Option String) : Response × Effects :=
  let limitS := limit.getD "10"
  let styleS := style.getD "horizontal"
  let themeS := theme.getD "light"
  match repo with
  | none => (requiredRepoResponse, noEffects cache)
  | some repoS =>
    if repoS == "" then (requiredRepoResponse, noEffects cache)
    else if !validRepoFormat repoS then (formatRepoResponse, noEffects cache)
    else
      if limitS == "all" then
        let f := getAllContributors env repoS false cache
        match f.result with
        | .error msg => (badgeFastErrorResponse msg, pageFetchEffects f)
        | .ok contributors =>
          if contributors.length == 0 then
            (⟨404, "No contributors found"⟩, pageFetchEffects f)
          else
            let finalStyle :=
              if contributors.length > 20 && styleS == "horizontal" then "grid" else styleS
            (⟨200, generateSVGBadge contributors finalStyle themeS⟩,
             withRender (pageFetchEffects f) contributors finalStyle themeS)
      else
        match parseIntJS limitS with
        | none => (⟨400, "Limit must be between 1 and 100, or \"all\""⟩, noEffects cache)
        | some limitNum =>
          if limitNum < 1 ∨ limitNum > 100 then
            (⟨400, "Limit must be between 1 and 100, or \"all\""⟩, noEffects cache)
          else
            let f := getContributors env repoS limitNum.toNat false cache
            match f.result with
            | .error msg => (badgeFastErrorResponse msg, boundedFetchEffects f)
            | .ok contributors =>
              if contributors.length == 0 then
                (⟨404, "No contributors found"⟩, boundedFetchEffects f)
              else
                (⟨200, generateSVGBadge contributors styleS themeS⟩,
                 withRender (boundedFetchEffects f) contributors styleS themeS)

/-- `GET /stats` (src/server.js lines 1254-1293).  Repo validation, then the
unbounded fetch without avatars; the JSON body is abbreviated to its top-level
counts (the claims only concern the status and the fetch behaviour). -/
def statsHandler (env : Env) (cache : Cache) (repo : Option String) : Response × Effects :=
  match repo with
  | none => (requiredRepoResponse, noEffects cache)
  | some repoS =>
    if repoS == "" then (requiredRepoResponse, noEffects cache)
    else if !validRepoFormat repoS then (formatRepoResponse, noEffects cache)
    else
      let f := getAllContributors env repoS false cache
      match f.result with
      | .error msg => (statsErrorResponse msg, pageFetchEffects f)
      | .ok contributors =>
        let total := contributors.length
        let sum := contributors.foldl (fun acc c => acc + c.contributions) 0
        (⟨200, s!"stats repository={repoS} total_contributors={total} total_contributions={sum}"⟩,
         pageFetchEffects f)

/-- Effects of the `/repo-info` handler: one repository-metadata call, no
cache or contributor-listing access. -/
def metaEffects (cache : Cache) : Effects :=
  { cache := cache, boundedCalls := 0, pageCalls := 0, metaCalls := 1,
    cacheReads := 0, renderCalls := [] }

/-- `GET /repo-info` (src/server.js lines 1318-1362).  Note: only the
presence of `repo` is checked — there is no `username/repo-name` format
validation on this endpoint; the metadata payload is abstracted.  The catch
block maps upstream 404 to 404 and everything else to 500. -/
def repoInfoHandler (env : Env) (cache : Cache) (repo : Option String) : Response × Effects :=
  match repo with
  | none => (requiredRepoResponse, noEffects cache)
  | some repoS =>
    if repoS == "" then (requiredRepoResponse, noEffects cache)
    else
      match env.repoMeta with
      | .ok _ => (⟨200, s!"repo-info {repoS}"⟩, metaEffects cache)
      | .error f =>
        match f with
        | .status c =>
          if c = 404 then (⟨404, "Repository not found"⟩, metaEffects cache)
          else (⟨500, "Failed to fetch repository information"⟩, metaEffects cache)
        | .network => (⟨500, "Failed to fetch repository information"⟩, metaEffects cache)

/-! ## Concrete fixtures used by counterexamples and witnesses -/

/-- A sample raw contributor. -/
def sampleRaw : RawContributor :=
  { login := "alice", avatar_url := "u", html_url := "h", contributions := 3 }

/-- Environment whose bounded fetch returns 21 contributors. -/
def envBounded21 : Env :=
  { bounded := fun _ => .ok (List.replicate 21 sampleRaw)
    pages := fun _ => .ok []
    avatars := fun _ => none
    repoMeta := .ok ()
    now := 0 }

/-- Environment whose fetches return one contributor and whose avatar fetches
all fail. -/
def envOne : Env :=
  { bounded := fun _ => .ok [sampleRaw]
    pages := fun p => if p = 1 then .ok [sampleRaw] else .ok []
    avatars := fun _ => none
    repoMeta := .ok ()
    now := 0 }

/-- Environment in which every upstream call fails with HTTP 401. -/
def envAuthFail : Env :=
  { bounded := fun _ => .error (.status 401)
    pages := fun _ => .error (.status 401)
    avatars := fun _ => none
    repoMeta := .error (.status 401)
    now := 0 }

/-- Environment whose contributor listings are empty. -/
def envEmptyPages : Env :=
  { bounded := fun _ => .ok []
    pages := fun _ => .ok []
    avatars := fun _ => none
    repoMeta := .ok ()
    now := 0 }

/-- A concrete cache holding one entry for the bounded key of `a/b`, stored
at timestamp 0. -/
def cacheWithEntry : Cache :=
  cacheSet emptyCache (contributorsCacheKey "a/b" 10 true) { data := [], timestamp := 0 }

/-- Environment whose first contributor page holds 21 contributors. -/
def env21pages : Env :=
  { bounded := fun _ => .ok []
    pages := fun p => if p = 1 then .ok (List.replicate 21 sampleRaw) else .ok []
    avatars := fun _ => none
    repoMeta := .ok ()
    now := 0 }

/-- The processed contributor list the unbounded fetch produces from
`env21pages`. -/
def processed21 : List Contributor :=
  (List.replicate 21 sampleRaw).mapIdx (fun i c =>
    processContributor env21pages.avatars (true && decide (i < 50)) i c)

/-! ## Spec-side definitions (written from the specification text, for
comparison against the source-side definitions above) -/

/-- Spec-side placeholder markup: a solid circle of the given colour with the
given glyph (the deterministic placeholder of §4.1/§4.3 of the spec),
positioned in the cell at `(x, y)`. -/
def placeholderMarkup (colors : ThemeColors) (color initial : String) (x y : Nat) : String :=
  let cx := x + avatarSize / 2
  let cy := y + avatarSize / 2
  let r := avatarSize / 2
  let ty := y + avatarSize / 2 + 5
  let ft := colors.fallbackText
  s!"<circle cx=\"{cx}\" cy=\"{cy}\" r=\"{r}\" fill=\"{color}\" class=\"avatar-fallback\"/><text x=\"{cx}\" y=\"{ty}\" text-anchor=\"middle\" font-family=\"-apple-system, BlinkMacSystemFont, \x27Segoe UI\x27, Roboto, sans-serif\" font-size=\"18\" font-weight=\"bold\" fill=\"{ft}\" class=\"avatar-initial\">{initial}</text>"

/-- Status that `/badge` actually assigns to an upstream contributor-listing
failure (written independently of the handler, from the observed mapping):
404 → 404, 403 → 429, 401 → 401, everything else → 500. -/
def specBadgeStatus (f : UpstreamFailure) : Nat :=
  match f with
  | .status c => if c = 404 then 404 else if c = 403 then 429 else if c = 401 then 401 else 500
  | .network => 500

/-- Status that `/badge/all`, `/badge/fast` and `/stats` assign to an
upstream failure: 404 → 404, 403 → 429, everything else — including 401 —
→ 500. -/
def specNo401Status (f : UpstreamFailure) : Nat :=
  match f with
  | .status c => if c = 404 then 404 else if c = 403 then 429 else 500
  | .network => 500

/-- Status that `/repo-info` assigns to an upstream metadata failure:
404 → 404, everything else → 500. -/
def specRepoInfoStatus (f : UpstreamFailure) : Nat :=
  match f with
  | .status c => if c = 404 then 404 else 500
  | .network => 500

/-! ## Helper lemmas -/

/-- The pagination loop issues at most `calls + fuel` page requests. -/
theorem getAllLoop_snd_le (pages : Nat → Except UpstreamFailure (List RawContributor)) :
    ∀ (fuel page : Nat) (acc : List RawContributor) (calls : Nat),
      (getAllLoop pages fuel page acc calls).2 ≤ calls + fuel := by
  intro fuel
  induction fuel with
  | zero => intro page acc calls; simp [getAllLoop]
  | succ fuel ih =>
    intro page acc calls
    rw [getAllLoop]
    cases h : pages page with
    | error f => simp
    | ok resp =>
      by_cases h0 : resp.length = 0
      · simp [h0]
      · simp only [h0, if_false]
        by_cases hp : page + 1 > 100
        · simp [hp]
        · simp only [hp, if_false]
          exact (ih (page + 1) (acc ++ resp) (calls + 1)).trans (by omega)

/-- The pagination loop issues at least one page request when it has fuel. -/
theorem getAllLoop_one_le (pages : Nat → Except UpstreamFailure (List RawContributor)) :
    ∀ (fuel page : Nat) (acc : List RawContributor) (calls : Nat), 0 < fuel →
      calls + 1 ≤ (getAllLoop pages fuel page acc calls).2 := by
  intro fuel
  induction fuel with
  | zero => intro _ _ _ h; omega
  | succ fuel ih =>
    intro page acc calls _
    rw [getAllLoop]
    cases h : pages page with
    | error f => simp
    | ok resp =>
      by_cases h0 : resp.length = 0
      · simp [h0]
      · simp only [h0, if_false]
        by_cases hp : page + 1 > 100
        · simp [hp]
        · simp only [hp, if_false]
          by_cases hf : 0 < fuel
          · exact le_trans (by omega) (ih (page + 1) (acc ++ resp) (calls + 1) hf)
          · have : fuel = 0 := by omega
            subst this
            simp [getAllLoop]

/-- `n ≤ ceilSqrt n ^ 2`. -/
theorem le_ceilSqrt_sq (n : Nat) : n ≤ ceilSqrt n * ceilSqrt n := by
  unfold ceilSqrt
  by_cases h : Nat.sqrt n * Nat.sqrt n = n
  · simp [h]
  · simp only [h, if_false]
    have h2 := Nat.lt_succ_sqrt n
    rw [Nat.succ_eq_add_one] at h2
    omega

/-- `ceilSqrt n` is least: the predecessor squared falls short of `n`. -/
theorem ceilSqrt_pred_sq_lt (n : Nat) (hn : 0 < n) :
    (ceilSqrt n - 1) * (ceilSqrt n - 1) < n := by
  unfold ceilSqrt
  by_cases h : Nat.sqrt n * Nat.sqrt n = n
  · simp only [h, if_true]
    have hs : 0 < Nat.sqrt n := Nat.sqrt_pos.mpr hn
    have : (Nat.sqrt n - 1) * (Nat.sqrt n - 1) < Nat.sqrt n * Nat.sqrt n :=
      Nat.mul_self_lt_mul_self (by omega)
    omega
  · simp only [h, if_false]
    have := Nat.sqrt_le n
    simpa using Nat.lt_of_le_of_ne this h

/-- `ceilSqrt` is positive on positive input. -/
theorem ceilSqrt_pos (n : Nat) (hn : 0 < n) : 0 < ceilSqrt n := by
  unfold ceilSqrt
  by_cases h : Nat.sqrt n * Nat.sqrt n = n
  · simp only [h, if_true]
    exact Nat.sqrt_pos.mpr hn
  · simp [h]

/-- Ceiling division upper characterisation: `n ≤ c * ((n + c - 1) / c)`. -/
theorem le_mul_ceilDiv (n c : Nat) (hc : 0 < c) : n ≤ c * ((n + c - 1) / c) := by
  have h := Nat.div_add_mod (n + c - 1) c
  have hm : (n + c - 1) % c < c := Nat.mod_lt _ hc
  omega

/-- Ceiling division lower characterisation: one less row does not cover `n`. -/
theorem mul_ceilDiv_pred_lt (n c : Nat) (hn : 0 < n) (hc : 0 < c) :
    c * ((n + c - 1) / c - 1) < n := by
  have h := Nat.div_add_mod (n + c - 1) c
  have hm : (n + c - 1) % c < c := Nat.mod_lt _ hc
  have hq : 0 < (n + c - 1) / c := by
    apply Nat.div_pos <;> omega
  have hrw : c * ((n + c - 1) / c - 1) + c = c * ((n + c - 1) / c) := by
    calc c * ((n + c - 1) / c - 1) + c
        = c * ((n + c - 1) / c - 1 + 1) := by ring
      _ = c * ((n + c - 1) / c) := by congr 1; omega
  omega

/-! ## C5: the unbounded fetch terminates within the 100-page ceiling -/

/-- C5 (confirmed).  For every upstream paging behaviour — including one that
never returns an empty page and never fails — the pagination loop of
`getAllContributors`, started as the source starts it (`page = 1`), issues at
most 100 page requests.  Termination itself is inherent: `getAllLoop` is a
total structurally recursive function whose fuel argument realises the
`if (page > 100) break` bound. -/
theorem c5_pagination_bounded
    (pages : Nat → Except UpstreamFailure (List RawContributor)) :
    (getAllLoop pages 100 1 [] 0).2 ≤ 100 :=
  getAllLoop_snd_le pages 100 1 [] 0

/-! ## C10: the `/badge` limit parser accepts integer-prefixed strings -/

/-- C10 (confirmed).  `parseInt`-style prefix parsing makes `/badge` accept
limit strings that are neither integers nor `all`: `10abc` parses to 10 and
`7.9` to 7; with `limit=10abc` the request is not rejected but proceeds, and
the result is cached under the key for limit 10. -/
theorem c10_limit_prefix_parsing :
    parseIntJS "10abc" = some 10 ∧ parseIntJS "7.9" = some 7 ∧
    (badgeHandler envOne emptyCache (some "a/b") (some "10abc") none none none).1.status = 200 ∧
    ((badgeHandler envOne emptyCache (some "a/b") (some "10abc") none none none).2.cache
      (contributorsCacheKey "a/b" 10 true)).isSome = true := by
  refine ⟨by decide, by decide, by decide, by decide⟩

/-! ## Counterexamples for the corrected claims -/

/-- C1 counterexample.  A `/badge` request with a numeric limit (`limit=50`),
`style=horizontal` and a fetched contributor count of 21 (> 20) renders with
style `horizontal`, not `grid`: the auto-escalation does not happen on the
numeric-limit path, refuting the claim for this endpoint/request mode. -/
theorem c1_counterexample :
    ((badgeHandler envBounded21 emptyCache (some "a/b") (some "50") (some "horizontal")
        none none).2.renderCalls.map (fun rc => (rc.contributors.length, rc.style)))
      = [(21, "horizontal")] := by
  decide

/-- C2 counterexample.  `a/` splits into exactly two (one empty) segments and
passes validation: `/badge?repo=a/&limit=1` is served (200), not rejected with
400; and `/repo-info?repo=noSlash` performs no format validation at all and
answers 200 when upstream metadata succeeds. -/
theorem c2_counterexample :
    validRepoFormat "a/" = true ∧
    (badgeHandler envOne emptyCache (some "a/") (some "1") none none none).1.status = 200 ∧
    (repoInfoHandler envOne emptyCache (some "noSlash")).1.status = 200 := by
  refine ⟨by decide, by decide, by decide⟩

/-- C3 counterexample.  When the contributor-listing upstream fails with HTTP
401 (unauthorized), `/badge/all` answers 500, not 401: its catch block has no
`Authentication failed` branch. -/
theorem c3_counterexample :
    (badgeAllHandler envAuthFail emptyCache (some "a/b") none none none).1.status = 500 := by
  decide

/-! ## C4: cache freshness window -/

/-- C4 (confirmed).  For both fetch helpers: a lookup strictly less than
`CACHE_DURATION` (5 minutes) after the entry was stored returns exactly the
stored list with zero upstream calls and an unchanged cache; a lookup at or
past the window ignores the entry — the fresh upstream result overwrites it
with the current timestamp (one bounded call, resp. at least one page call);
and any result served without an upstream call comes from an entry strictly
inside the freshness window, so a stale entry is never returned. -/
theorem c4_cache_freshness :
    (∀ (env : Env) (repo : String) (limit : Nat) (inc : Bool) (cache : Cache) (e : CacheEntry),
      cache (contributorsCacheKey repo limit inc) = some e →
      env.now - e.timestamp < CACHE_DURATION →
      getContributors env repo limit inc cache =
        { result := .ok e.data, cache := cache, calls := 0, reads := 1 }) ∧
    (∀ (env : Env) (repo : String) (limit : Nat) (inc : Bool) (cache : Cache) (e : CacheEntry)
        (raws : List RawContributor),
      cache (contributorsCacheKey repo limit inc) = some e →
      ¬ env.now - e.timestamp < CACHE_DURATION →
      env.bounded (min limit 100) = .ok raws →
      (getContributors env repo limit inc cache).calls = 1 ∧
      (getContributors env repo limit inc cache).cache (contributorsCacheKey repo limit inc) =
        some { data := raws.mapIdx (fun i c => processContributor env.avatars inc i c),
               timestamp := env.now }) ∧
    (∀ (env : Env) (repo : String) (limit : Nat) (inc : Bool) (cache : Cache)
        (l : List Contributor),
      (getContributors env repo limit inc cache).result = .ok l →
      (getContributors env repo limit inc cache).calls = 0 →
      ∃ e, cache (contributorsCacheKey repo limit inc) = some e ∧
        env.now - e.timestamp < CACHE_DURATION ∧ l = e.data) ∧
    (∀ (env : Env) (repo : String) (inc : Bool) (cache : Cache) (e : CacheEntry),
      cache (allCacheKey repo inc) = some e →
      env.now - e.timestamp < CACHE_DURATION →
      getAllContributors env repo inc cache =
        { result := .ok e.data, cache := cache, calls := 0, reads := 1 }) ∧
    (∀ (env : Env) (repo : String) (inc : Bool) (cache : Cache) (e : CacheEntry)
        (raws : List RawContributor) (calls : Nat),
      cache (allCacheKey repo inc) = some e →
      ¬ env.now - e.timestamp < CACHE_DURATION →
      getAllLoop env.pages 100 1 [] 0 = (.ok raws, calls) →
      1 ≤ (getAllContributors env repo inc cache).calls ∧
      (getAllContributors env repo inc cache).cache (allCacheKey repo inc) =
        some { data := raws.mapIdx (fun i c =>
                 processContributor env.avatars (inc && decide (i < 50)) i c),
               timestamp := env.now }) ∧
    (∀ (env : Env) (repo : String) (inc : Bool) (cache : Cache) (l : List Contributor),
      (getAllContributors env repo inc cache).result = .ok l →
      (getAllContributors env repo inc cache).calls = 0 →
      ∃ e, cache (allCacheKey repo inc) = some e ∧
        env.now - e.timestamp < CACHE_DURATION ∧ l = e.data) := by
  refine ⟨?_, ?_, ?_, ?_, ?_, ?_⟩
  · intro env repo limit inc cache e hc hfresh
    simp [getContributors, hc, hfresh]
  · intro env repo limit inc cache e raws hc hstale hok
    constructor
    · simp [getContributors, hc, hstale, hok]
    · simp [getContributors, hc, hstale, hok, cacheSet]
  · intro env repo limit inc cache l hres hcalls
    cases hcache : cache (contributorsCacheKey repo limit inc) with
    | none =>
      exfalso
      cases hok : env.bounded (min limit 100) with
      | error f => simp [getContributors, hcache, hok] at hcalls
      | ok raws => simp [getContributors, hcache, hok] at hcalls
    | some e =>
      by_cases hfresh : env.now - e.timestamp < CACHE_DURATION
      · refine ⟨e, rfl, hfresh, ?_⟩
        simp [getContributors, hcache, hfresh] at hres
        exact hres.symm
      · exfalso
        cases hok : env.bounded (min limit 100) with
        | error f => simp [getContributors, hcache, hfresh, hok] at hcalls
        | ok raws => simp [getContributors, hcache, hfresh, hok] at hcalls
  · intro env repo inc cache e hc hfresh
    simp [getAllContributors, hc, hfresh]
  · intro env repo inc cache e raws calls hc hstale hloop
    constructor
    · have h1 := getAllLoop_one_le env.pages 100 1 [] 0 (by omega)
      rw [hloop] at h1
      simpa [getAllContributors, hc, hstale, hloop] using h1
    · simp [getAllContributors, hc, hstale, hloop, cacheSet]
  · intro env repo inc cache l hres hcalls
    cases hcache : cache (allCacheKey repo inc) with
    | none =>
      exfalso
      rcases hloop : getAllLoop env.pages 100 1 [] 0 with ⟨res, calls⟩
      have h1 := getAllLoop_one_le env.pages 100 1 [] 0 (by omega)
      rw [hloop] at h1
      cases res with
      | error f =>
        simp [getAllContributors, hcache, hloop] at hcalls
        omega
      | ok raws =>
        simp [getAllContributors, hcache, hloop] at hcalls
        omega
    | some e =>
      by_cases hfresh : env.now - e.timestamp < CACHE_DURATION
      · refine ⟨e, rfl, hfresh, ?_⟩
        simp [getAllContributors, hcache, hfresh] at hres
        exact hres.symm
      · exfalso
        rcases hloop : getAllLoop env.pages 100 1 [] 0 with ⟨res, calls⟩
        have h1 := getAllLoop_one_le env.pages 100 1 [] 0 (by omega)
        rw [hloop] at h1
        cases res with
        | error f =>
          simp [getAllContributors, hcache, hfresh, hloop] at hcalls
          omega
        | ok raws =>
          simp [getAllContributors, hcache, hfresh, hloop] at hcalls
          omega

/-- Witness for C4: with `now = 0` (0 ms elapsed, strictly inside the
window) the stored list is served with zero upstream calls. -/
theorem c4_cache_freshness_witness :
    cacheWithEntry (contributorsCacheKey "a/b" 10 true) = some { data := [], timestamp := 0 } ∧
    envOne.now - (0 : Nat) < CACHE_DURATION ∧
    getContributors envOne "a/b" 10 true cacheWithEntry =
      { result := .ok [], cache := cacheWithEntry, calls := 0, reads := 1 } :=
  ⟨by decide, by decide,
   c4_cache_freshness.1 envOne "a/b" 10 true cacheWithEntry
     { data := [], timestamp := 0 } (by decide) (by decide)⟩

/-! ## C6: grid layout geometry -/

/-- C6 (confirmed).  For every non-empty contributor count `n`: the column
count is the ceiling square root of `n` (characterised order-theoretically:
`cols²` covers `n` and `(cols − 1)²` does not), the row count is
`⌈n / cols⌉` (characterised: `cols·rows` covers `n` and one less row does
not), the canvas is exactly `cols·70 + 12` by `rows·74 + 12` (70/74 the fixed
cell sizes, 12 the fixed padding), and item `i` is placed row-major at column
`i % cols`, row `⌊i / cols⌋`. -/
theorem c6_grid_layout (n : Nat) (hn : 0 < n) :
    (n ≤ gridCols n * gridCols n ∧ (gridCols n - 1) * (gridCols n - 1) < n) ∧
    (n ≤ gridCols n * gridRows n ∧ gridCols n * (gridRows n - 1) < n) ∧
    gridWidth n = gridCols n * 70 + 12 ∧
    gridHeight n = gridRows n * 74 + 12 ∧
    (∀ i, gridX n i = (i % gridCols n) * 70 + 12 ∧
          gridY n i = (i / gridCols n) * 74 + 12) := by
  have hc : 0 < gridCols n := ceilSqrt_pos n hn
  refine ⟨⟨le_ceilSqrt_sq n, ceilSqrt_pred_sq_lt n hn⟩, ⟨?_, ?_⟩, rfl, rfl, fun i => ⟨rfl, rfl⟩⟩
  · simpa [gridRows] using le_mul_ceilDiv n (gridCols n) hc
  · simpa [gridRows] using mul_ceilDiv_pred_lt n (gridCols n) hn hc

/-- Witness for C6 at the sizes named by the spec (1, 4, 5, 9, 13). -/
theorem c6_grid_layout_witness :
    (0 < 5 ∧
      (5 ≤ gridCols 5 * gridCols 5 ∧ (gridCols 5 - 1) * (gridCols 5 - 1) < 5) ∧
      (5 ≤ gridCols 5 * gridRows 5 ∧ gridCols 5 * (gridRows 5 - 1) < 5) ∧
      gridWidth 5 = gridCols 5 * 70 + 12 ∧
      gridHeight 5 = gridRows 5 * 74 + 12 ∧
      (∀ i, gridX 5 i = (i % gridCols 5) * 70 + 12 ∧
            gridY 5 i = (i / gridCols 5) * 74 + 12)) ∧
    (1 ≤ gridCols 1 * gridCols 1 ∧ (gridCols 1 - 1) * (gridCols 1 - 1) < 1) ∧
    (4 ≤ gridCols 4 * gridCols 4 ∧ (gridCols 4 - 1) * (gridCols 4 - 1) < 4) ∧
    (9 ≤ gridCols 9 * gridCols 9 ∧ (gridCols 9 - 1) * (gridCols 9 - 1) < 9) ∧
    (13 ≤ gridCols 13 * gridCols 13 ∧ (gridCols 13 - 1) * (gridCols 13 - 1) < 13) :=
  ⟨⟨by decide, c6_grid_layout 5 (by decide)⟩,
   (c6_grid_layout 1 (by decide)).1,
   (c6_grid_layout 4 (by decide)).1,
   (c6_grid_layout 9 (by decide)).1,
   (c6_grid_layout 13 (by decide)).1⟩

/-! ## C7: failed avatar fetches degrade to the deterministic placeholder -/

/-- C7 (confirmed).  If the secondary avatar fetch for the contributor at
position `i` fails (`none`), the bounded fetch still succeeds as a whole; the
record's inlined avatar field is absent; its fallback colour is the fixed
palette entry selected by the position index and its glyph is the uppercased
first character of the handle (both functions of position and handle only,
hence identical across runs); and the rendered avatar element for that record
is exactly the placeholder markup built from that colour and glyph. -/
theorem c7_avatar_fallback
    (env : Env) (repo : String) (limit : Nat) (cache : Cache)
    (raws : List RawContributor) (i : Nat) (hi : i < raws.length)
    (hmiss : cache (contributorsCacheKey repo limit true) = none)
    (hup : env.bounded (min limit 100) = .ok raws)
    (hfail : env.avatars (raws.get ⟨i, hi⟩).avatar_url = none) :
    ∃ l, (getContributors env repo limit true cache).result = .ok l ∧
      l.length = raws.length ∧
      ∃ hl : i < l.length,
        (l.get ⟨i, hl⟩).avatar_base64 = none ∧
        (l.get ⟨i, hl⟩).fallback.color = avatarColors.getD (i % avatarColors.length) "" ∧
        (l.get ⟨i, hl⟩).fallback.initial = jsCharAt0Upper (raws.get ⟨i, hi⟩).login ∧
        ∀ (colors : ThemeColors) (x y : Nat),
          avatarElement colors (l.get ⟨i, hl⟩) i x y =
            placeholderMarkup colors (avatarColors.getD (i % avatarColors.length) "")
              (jsCharAt0Upper (raws.get ⟨i, hi⟩).login) x y := by
  refine ⟨raws.mapIdx (fun idx c => processContributor env.avatars true idx c), ?_, ?_, ?_⟩
  · simp [getContributors, hmiss, hup]
  · simp
  · have hl : i < (raws.mapIdx (fun idx c => processContributor env.avatars true idx c)).length := by
      simpa using hi
    refine ⟨hl, ?_⟩
    have hget : (raws.mapIdx (fun idx c => processContributor env.avatars true idx c)).get ⟨i, hl⟩
        = processContributor env.avatars true i (raws.get ⟨i, hi⟩) :=
      List.get_mapIdx raws _ i hi
    rw [hget]
    have hfail2 : env.avatars (raws.get ⟨i, hi⟩).avatar_url = none := hfail
    rw [List.get_eq_getElem] at hfail2
    refine ⟨?_, ?_, ?_, ?_⟩
    · simpa [processContributor] using hfail2
    · simp [processContributor, generateAvatarPattern]
    · simp [processContributor, generateAvatarPattern]
    · intro colors x y
      simp [processContributor, generateAvatarPattern, avatarElement, placeholderMarkup, hfail2]

/-- Witness for C7 at a concrete request: one contributor, every avatar
fetch failing. -/
theorem c7_avatar_fallback_witness :
    (0 < [sampleRaw].length) ∧
    ∃ l, (getContributors envOne "a/b" 10 true emptyCache).result = .ok l ∧
      l.length = [sampleRaw].length ∧
      ∃ hl : 0 < l.length,
        (l.get ⟨0, hl⟩).avatar_base64 = none ∧
        (l.get ⟨0, hl⟩).fallback.color = avatarColors.getD (0 % avatarColors.length) "" ∧
        (l.get ⟨0, hl⟩).fallback.initial
          = jsCharAt0Upper ([sampleRaw].get ⟨0, by decide⟩).login ∧
        ∀ (colors : ThemeColors) (x y : Nat),
          avatarElement colors (l.get ⟨0, hl⟩) 0 x y =
            placeholderMarkup colors (avatarColors.getD (0 % avatarColors.length) "")
              (jsCharAt0Upper ([sampleRaw].get ⟨0, by decide⟩).login) x y :=
  ⟨by decide,
   c7_avatar_fallback envOne "a/b" 10 emptyCache [sampleRaw] 0 (by decide) rfl rfl rfl⟩

/-! ## C1 (corrected): where auto-escalation actually happens -/

/-- C1 amended.  Auto-escalation to `grid` happens exactly on the unbounded
fetch paths: on `/badge` and `/badge/fast` with `limit=all` a fetched count
above 20 with requested style `horizontal` renders as `grid`, and `/badge/all`
forces `grid` above 20 contributors regardless of the requested style; but on
the numeric-limit path of `/badge` the requested style is passed to the
renderer unchanged — likewise on the numeric-limit path of `/badge/fast` —
with no escalation even when the fetched count exceeds 20. -/
theorem c1_escalation_amended :
    (∀ (env : Env) (cache : Cache) (r theme : String) (l : List Contributor),
      (r == "") = false → validRepoFormat r = true →
      (theme == "light" || theme == "dark") = true →
      (getAllContributors env r true cache).result = .ok l → 20 < l.length →
      (badgeHandler env cache (some r) (some "all") (some "horizontal") (some theme)
          none).2.renderCalls = [⟨l, "grid", theme⟩]) ∧
    (∀ (env : Env) (cache : Cache) (r style theme : String) (l : List Contributor),
      (r == "") = false → validRepoFormat r = true →
      (getAllContributors env r true cache).result = .ok l → 20 < l.length →
      (badgeAllHandler env cache (some r) (some style) (some theme)
          none).2.renderCalls = [⟨l, "grid", theme⟩]) ∧
    (∀ (env : Env) (cache : Cache) (r theme : String) (l : List Contributor),
      (r == "") = false → validRepoFormat r = true →
      (getAllContributors env r false cache).result = .ok l → 20 < l.length →
      (badgeFastHandler env cache (some r) (some "all") (some "horizontal")
          (some theme)).2.renderCalls = [⟨l, "grid", theme⟩]) ∧
    (∀ (env : Env) (cache : Cache) (r style theme limitS : String) (n : Int)
        (l : List Contributor),
      (r == "") = false → validRepoFormat r = true →
      (style == "horizontal" || style == "grid") = true →
      (theme == "light" || theme == "dark") = true →
      (limitS == "all") = false →
      parseIntJS limitS = some n → ¬(n < 1 ∨ n > 100) →
      (getContributors env r n.toNat true cache).result = .ok l → l ≠ [] →
      (badgeHandler env cache (some r) (some limitS) (some style) (some theme)
          none).2.renderCalls = [⟨l, style, theme⟩]) ∧
    (∀ (env : Env) (cache : Cache) (r style theme limitS : String) (n : Int)
        (l : List Contributor),
      (r == "") = false → validRepoFormat r = true →
      (limitS == "all") = false →
      parseIntJS limitS = some n → ¬(n < 1 ∨ n > 100) →
      (getContributors env r n.toNat false cache).result = .ok l → l ≠ [] →
      (badgeFastHandler env cache (some r) (some limitS) (some style)
          (some theme)).2.renderCalls = [⟨l, style, theme⟩]) := by
  have hinc : (!(("true" : String) == "false")) = true := by decide
  refine ⟨?_, ?_, ?_, ?_, ?_⟩
  · intro env cache r theme l hr hv ht hfetch h20
    have h0 : (l.length == 0) = false := by
      simp only [beq_eq_false_iff_ne, ne_eq]
      omega
    simp [badgeHandler, hr, hv, ht, hinc, hfetch, h0, h20, withRender, pageFetchEffects]
  · intro env cache r style theme l hr hv hfetch h20
    have h0 : (l.length == 0) = false := by
      simp only [beq_eq_false_iff_ne, ne_eq]
      omega
    simp [badgeAllHandler, hr, hv, hinc, hfetch, h0, h20, withRender, pageFetchEffects]
  · intro env cache r theme l hr hv hfetch h20
    have h0 : (l.length == 0) = false := by
      simp only [beq_eq_false_iff_ne, ne_eq]
      omega
    simp [badgeFastHandler, hr, hv, hfetch, h0, h20, withRender, pageFetchEffects]
  · intro env cache r style theme limitS n l hr hv hsty ht hall hparse hrange hfetch hl
    have h0 : (l.length == 0) = false := by
      simp only [beq_eq_false_iff_ne, ne_eq, List.length_eq_zero]
      exact hl
    simp [badgeHandler, hr, hv, hsty, ht, hall, hinc, hparse, hrange, hfetch, h0,
      withRender, boundedFetchEffects]
  · intro env cache r style theme limitS n l hr hv hall hparse hrange hfetch hl
    have h0 : (l.length == 0) = false := by
      simp only [beq_eq_false_iff_ne, ne_eq, List.length_eq_zero]
      exact hl
    simp [badgeFastHandler, hr, hv, hall, hparse, hrange, hfetch, h0,
      withRender, boundedFetchEffects]

/-- Witness for C1 amended: 21 contributors fetched via `limit=all` on
`/badge` with `style=horizontal` are rendered as a grid. -/
theorem c1_escalation_amended_witness :
    (("a/b" == "") = false ∧ validRepoFormat "a/b" = true ∧
      (("light" : String) == "light" || ("light" : String) == "dark") = true ∧
      (getAllContributors env21pages "a/b" true emptyCache).result = .ok processed21 ∧
      20 < processed21.length) ∧
    (badgeHandler env21pages emptyCache (some "a/b") (some "all") (some "horizontal")
        (some "light") none).2.renderCalls = [⟨processed21, "grid", "light"⟩] :=
  ⟨⟨by decide, by decide, by decide, rfl, by decide⟩,
   c1_escalation_amended.1 env21pages emptyCache "a/b" "light" processed21
     (by decide) (by decide) (by decide) rfl (by decide)⟩

/-! ## C2 (corrected): repo-id validation per endpoint -/

/-- C2 amended.  `/badge`, `/badge/all`, `/badge/fast` and `/stats` reject
with 400 — before any cache access or upstream call (all ghost counters zero,
cache unchanged) — a repository id that does not split by `/` into exactly
two segments, and each of the four rejects a missing or empty (JS-falsy) id
via the presence check; but the check only counts segments, so ids with an
empty segment such as `a/` and `/b` pass validation, and `/repo-info`
performs no format validation at all: any non-empty id is forwarded upstream
(exactly one metadata call, no cache or contributor-listing access) and is
never answered with 400. -/
theorem c2_validation_amended :
    (∀ (env : Env) (cache : Cache) (r : String) (limit style theme avatars : Option String),
      (r == "") = false → validRepoFormat r = false →
      badgeHandler env cache (some r) limit style theme avatars
        = (formatRepoResponse, noEffects cache)) ∧
    (∀ (env : Env) (cache : Cache) (r : String) (style theme avatars : Option String),
      (r == "") = false → validRepoFormat r = false →
      badgeAllHandler env cache (some r) style theme avatars
        = (formatRepoResponse, noEffects cache)) ∧
    (∀ (env : Env) (cache : Cache) (r : String) (limit style theme : Option String),
      (r == "") = false → validRepoFormat r = false →
      badgeFastHandler env cache (some r) limit style theme
        = (formatRepoResponse, noEffects cache)) ∧
    (∀ (env : Env) (cache : Cache) (r : String),
      (r == "") = false → validRepoFormat r = false →
      statsHandler env cache (some r) = (formatRepoResponse, noEffects cache)) ∧
    (∀ (env : Env) (cache : Cache) (limit style theme avatars : Option String),
      badgeHandler env cache none limit style theme avatars
        = (requiredRepoResponse, noEffects cache) ∧
      badgeHandler env cache (some "") limit style theme avatars
        = (requiredRepoResponse, noEffects cache) ∧
      badgeAllHandler env cache none style theme avatars
        = (requiredRepoResponse, noEffects cache) ∧
      badgeAllHandler env cache (some "") style theme avatars
        = (requiredRepoResponse, noEffects cache) ∧
      badgeFastHandler env cache none limit style theme
        = (requiredRepoResponse, noEffects cache) ∧
      badgeFastHandler env cache (some "") limit style theme
        = (requiredRepoResponse, noEffects cache) ∧
      statsHandler env cache none = (requiredRepoResponse, noEffects cache) ∧
      statsHandler env cache (some "") = (requiredRepoResponse, noEffects cache)) ∧
    validRepoFormat "a/" = true ∧ validRepoFormat "/b" = true ∧
    (∀ (env : Env) (cache : Cache) (r : String),
      (r == "") = false →
      (repoInfoHandler env cache (some r)).1.status ≠ 400 ∧
      (repoInfoHandler env cache (some r)).2 = metaEffects cache) := by
  refine ⟨?_, ?_, ?_, ?_, ?_, by decide, by decide, ?_⟩
  · intro env cache r limit style theme avatars hr hv
    simp [badgeHandler, hr, hv]
  · intro env cache r style theme avatars hr hv
    simp [badgeAllHandler, hr, hv]
  · intro env cache r limit style theme hr hv
    simp [badgeFastHandler, hr, hv]
  · intro env cache r hr hv
    simp [statsHandler, hr, hv]
  · intro env cache limit style theme avatars
    exact ⟨rfl, by simp [badgeHandler], rfl, by simp [badgeAllHandler], rfl,
      by simp [badgeFastHandler], rfl, by simp [statsHandler]⟩
  · intro env cache r hr
    rcases hmeta : env.repoMeta with f | u
    · rcases f with c | _
      · by_cases h404 : c = 404
        · constructor <;> simp [repoInfoHandler, hr, hmeta, h404]
        · constructor <;> simp [repoInfoHandler, hr, hmeta, h404]
      · constructor <;> simp [repoInfoHandler, hr, hmeta]
    · constructor <;> simp [repoInfoHandler, hr, hmeta]

/-- Witness for C2 amended: `a/b/c` is rejected by `/badge` with the format
error and untouched effects, and `/repo-info` does not 400 on `noSlash`. -/
theorem c2_validation_amended_witness :
    (("a/b/c" == "") = false ∧ validRepoFormat "a/b/c" = false ∧
      badgeHandler envOne emptyCache (some "a/b/c") none none none none
        = (formatRepoResponse, noEffects emptyCache)) ∧
    (("noSlash" == "") = false ∧
      (repoInfoHandler envOne emptyCache (some "noSlash")).1.status ≠ 400 ∧
      (repoInfoHandler envOne emptyCache (some "noSlash")).2 = metaEffects emptyCache) :=
  ⟨⟨by decide, by decide,
    c2_validation_amended.1 envOne emptyCache "a/b/c" none none none none
      (by decide) (by decide)⟩,
   ⟨by decide,
    (c2_validation_amended.2.2.2.2.2.2.2 envOne emptyCache "noSlash" (by decide)).1,
    (c2_validation_amended.2.2.2.2.2.2.2 envOne emptyCache "noSlash" (by decide)).2⟩⟩

/-! ## C3 (corrected): upstream failure mapping per endpoint -/

/-- The pagination loop propagates a failure of the very first page request. -/
theorem getAllLoop_error_start (pages : Nat → Except UpstreamFailure (List RawContributor))
    (fl : UpstreamFailure) (h : pages 1 = .error fl) :
    ∀ fuel, 0 < fuel → getAllLoop pages fuel 1 [] 0 = (.error fl, 1) := by
  intro fuel hf
  cases fuel with
  | zero => omega
  | succ fuel => simp [getAllLoop, h]

/-- C3 amended.  Upstream contributor-listing failures map to caller-visible
statuses as follows: on `/badge`, not-found → 404, forbidden → 429,
unauthorized → 401, anything else → 500; but on `/badge/all`, `/badge/fast`
and `/stats` the unauthorized case has no dedicated branch and falls through
to 500 (only not-found → 404 and forbidden → 429 are distinguished); and
`/repo-info` maps upstream not-found to 404 and every other failure —
including forbidden and unauthorized — to 500. -/
theorem c3_error_mapping_amended :
    (∀ (env : Env) (r : String) (fl : UpstreamFailure),
      (r == "") = false → validRepoFormat r = true →
      (∀ pp, env.bounded pp = .error fl) →
      (badgeHandler env emptyCache (some r) none none none none).1.status
        = specBadgeStatus fl) ∧
    (∀ (env : Env) (r : String) (fl : UpstreamFailure),
      (r == "") = false → validRepoFormat r = true →
      (∀ p, env.pages p = .error fl) →
      (badgeAllHandler env emptyCache (some r) none none none).1.status
        = specNo401Status fl) ∧
    (∀ (env : Env) (r : String) (fl : UpstreamFailure),
      (r == "") = false → validRepoFormat r = true →
      (∀ pp, env.bounded pp = .error fl) →
      (badgeFastHandler env emptyCache (some r) none none none).1.status
        = specNo401Status fl) ∧
    (∀ (env : Env) (r : String) (fl : UpstreamFailure),
      (r == "") = false → validRepoFormat r = true →
      (∀ p, env.pages p = .error fl) →
      (statsHandler env emptyCache (some r)).1.status = specNo401Status fl) ∧
    (∀ (env : Env) (r : String) (fl : UpstreamFailure),
      (r == "") = false → env.repoMeta = .error fl →
      (repoInfoHandler env emptyCache (some r)).1.status = specRepoInfoStatus fl) := by
  have hp : parseIntJS "10" = some 10 := by decide
  refine ⟨?_, ?_, ?_, ?_, ?_⟩
  · intro env r fl hr hv hb
    have hred : (badgeHandler env emptyCache (some r) none none none none).1
        = badgeErrorResponse (mapFetchError fl) := by
      simp [badgeHandler, hr, hv, hp, getContributors, emptyCache, hb]
    rw [hred]
    rcases fl with c | _
    · by_cases h1 : c = 404
      · subst h1; decide
      · by_cases h2 : c = 403
        · subst h2; decide
        · by_cases h3 : c = 401
          · subst h3; decide
          · simp [mapFetchError, badgeErrorResponse, specBadgeStatus, beq_iff_eq, h1, h2, h3]
    · decide
  · intro env r fl hr hv hpg
    have hloop := getAllLoop_error_start env.pages fl (hpg 1) 100 (by omega)
    have hred : (badgeAllHandler env emptyCache (some r) none none none).1
        = badgeAllErrorResponse (mapFetchError fl) := by
      simp [badgeAllHandler, hr, hv, getAllContributors, emptyCache, hloop]
    rw [hred]
    rcases fl with c | _
    · by_cases h1 : c = 404
      · subst h1; decide
      · by_cases h2 : c = 403
        · subst h2; decide
        · by_cases h3 : c = 401
          · subst h3; decide
          · simp [mapFetchError, badgeAllErrorResponse, specNo401Status, beq_iff_eq, h1, h2, h3]
    · decide
  · intro env r fl hr hv hb
    have hred : (badgeFastHandler env emptyCache (some r) none none none).1
        = badgeFastErrorResponse (mapFetchError fl) := by
      simp [badgeFastHandler, hr, hv, hp, getContributors, emptyCache, hb]
    rw [hred]
    rcases fl with c | _
    · by_cases h1 : c = 404
      · subst h1; decide
      · by_cases h2 : c = 403
        · subst h2; decide
        · by_cases h3 : c = 401
          · subst h3; decide
          · simp [mapFetchError, badgeFastErrorResponse, specNo401Status, beq_iff_eq, h1, h2, h3]
    · decide
  · intro env r fl hr hv hpg
    have hloop := getAllLoop_error_start env.pages fl (hpg 1) 100 (by omega)
    have hred : (statsHandler env emptyCache (some r)).1
        = statsErrorResponse (mapFetchError fl) := by
      simp [statsHandler, hr, hv, getAllContributors, emptyCache, hloop]
    rw [hred]
    rcases fl with c | _
    · by_cases h1 : c = 404
      · subst h1; decide
      · by_cases h2 : c = 403
        · subst h2; decide
        · by_cases h3 : c = 401
          · subst h3; decide
          · simp [mapFetchError, statsErrorResponse, specNo401Status, beq_iff_eq, h1, h2, h3]
    · decide
  · intro env r fl hr hmeta
    rcases fl with c | _
    · by_cases h1 : c = 404
      · subst h1; simp [repoInfoHandler, hr, hmeta, specRepoInfoStatus]
      · simp [repoInfoHandler, hr, hmeta, specRepoInfoStatus, h1]
    · simp [repoInfoHandler, hr, hmeta, specRepoInfoStatus]

/-- Witness for C3 amended: an upstream 401 yields 401 on `/badge` but 500 on
`/badge/all`. -/
theorem c3_error_mapping_amended_witness :
    (("a/b" == "") = false ∧ validRepoFormat "a/b" = true ∧
      (∀ pp, envAuthFail.bounded pp = .error (.status 401)) ∧
      (badgeHandler envAuthFail emptyCache (some "a/b") none none none none).1.status
        = specBadgeStatus (.status 401) ∧
      specBadgeStatus (.status 401) = 401) ∧
    ((∀ p, envAuthFail.pages p = .error (.status 401)) ∧
      (badgeAllHandler envAuthFail emptyCache (some "a/b") none none none).1.status
        = specNo401Status (.status 401) ∧
      specNo401Status (.status 401) = 500) :=
  ⟨⟨by decide, by decide, fun _ => rfl,
    c3_error_mapping_amended.1 envAuthFail "a/b" (.status 401) (by decide) (by decide)
      (fun _ => rfl),
    by decide⟩,
   ⟨fun _ => rfl,
    c3_error_mapping_amended.2.1 envAuthFail "a/b" (.status 401) (by decide) (by decide)
      (fun _ => rfl),
    by decide⟩⟩

/-! ## C8: limit validation on `/badge` -/

/-- The `/badge` error translation never produces a 400. -/
theorem badgeErrorResponse_status_ne_400 (msg : String) :
    (badgeErrorResponse msg).status ≠ 400 := by
  cases h1 : (msg == "Repository not found") <;>
    cases h2 : (msg == "API rate limit exceeded") <;>
      cases h3 : (msg == "Authentication failed") <;>
        simp [badgeErrorResponse, h1, h2, h3]

/-- On a cache miss the unbounded fetch performs at least one page request. -/
theorem getAllContributors_calls_pos (env : Env) (repo : String) (inc : Bool) (cache : Cache)
    (h : cache (allCacheKey repo inc) = none) :
    1 ≤ (getAllContributors env repo inc cache).calls := by
  rcases hloop : getAllLoop env.pages 100 1 [] 0 with ⟨res, calls⟩
  have h1 := getAllLoop_one_le env.pages 100 1 [] 0 (by omega)
  rw [hloop] at h1
  cases res with
  | error f => simp [getAllContributors, h, hloop]; omega
  | ok raws => simp [getAllContributors, h, hloop]; omega

/-- C8 (confirmed).  A `limit` value that is not the literal `all` and does
not `parseInt` into `[1, 100]` is answered 400 with zero cache reads and zero
upstream calls (for every combination of the other parameters — the earlier
validations also answer 400 without any access); `limit=all` is accepted and
dispatches to the unbounded paginated fetch: zero bounded calls and at least
one page call on a cache miss, and never a 400. -/
theorem c8_limit_validation :
    (∀ (env : Env) (cache : Cache) (repo style theme avatars : Option String)
        (limitS : String),
      (limitS == "all") = false →
      (∀ n, parseIntJS limitS = some n → n < 1 ∨ n > 100) →
      (badgeHandler env cache repo (some limitS) style theme avatars).1.status = 400 ∧
      (badgeHandler env cache repo (some limitS) style theme avatars).2 = noEffects cache) ∧
    (∀ (env : Env) (cache : Cache) (r theme : String),
      (r == "") = false → validRepoFormat r = true →
      (theme == "light" || theme == "dark") = true →
      cache (allCacheKey r true) = none →
      (badgeHandler env cache (some r) (some "all") none (some theme) none).1.status ≠ 400 ∧
      (badgeHandler env cache (some r) (some "all") none (some theme) none).2.boundedCalls
        = 0 ∧
      1 ≤ (badgeHandler env cache (some r) (some "all") none (some theme)
            none).2.pageCalls) := by
  constructor
  · intro env cache repo style theme avatars limitS hall hbad
    rcases repo with _ | r
    · exact ⟨rfl, rfl⟩
    · cases h1 : (r == "")
      · cases h2 : validRepoFormat r
        · constructor <;> simp [badgeHandler, h1, h2, formatRepoResponse]
        · cases h3 : ((style.getD "horizontal") == "horizontal"
              || (style.getD "horizontal") == "grid")
          · constructor <;> simp [badgeHandler, h1, h2, h3]
          · cases h4 : ((theme.getD "light") == "light" || (theme.getD "light") == "dark")
            · constructor <;> simp [badgeHandler, h1, h2, h3, h4]
            · rcases hp : parseIntJS limitS with _ | n
              · constructor <;> simp [badgeHandler, h1, h2, h3, h4, hall, hp]
              · have hbadn := hbad n hp
                constructor <;> simp [badgeHandler, h1, h2, h3, h4, hall, hp, hbadn]
      · constructor <;> simp [badgeHandler, h1, requiredRepoResponse]
  · intro env cache r theme hr hv ht hmiss
    have hinc : (!(("true" : String) == "false")) = true := by decide
    have hcp := getAllContributors_calls_pos env r true cache hmiss
    rcases hres : (getAllContributors env r true cache).result with msg | l
    · refine ⟨?_, ?_, ?_⟩
      · have hred : (badgeHandler env cache (some r) (some "all") none (some theme)
            none).1 = badgeErrorResponse msg := by
          simp [badgeHandler, hr, hv, ht, hres]
        rw [hred]
        exact badgeErrorResponse_status_ne_400 msg
      · simp [badgeHandler, hr, hv, ht, hres, pageFetchEffects]
      · simp [badgeHandler, hr, hv, ht, hres, pageFetchEffects]
        exact hcp
    · cases h0 : (l.length == 0)
      · refine ⟨?_, ?_, ?_⟩
        · simp [badgeHandler, hr, hv, ht, hres, h0, pageFetchEffects, withRender]
        · simp [badgeHandler, hr, hv, ht, hres, h0, pageFetchEffects, withRender]
        · simp [badgeHandler, hr, hv, ht, hres, h0, pageFetchEffects, withRender]
          exact hcp
      · refine ⟨?_, ?_, ?_⟩
        · simp [badgeHandler, hr, hv, ht, hres, h0, pageFetchEffects]
        · simp [badgeHandler, hr, hv, ht, hres, h0, pageFetchEffects]
        · simp [badgeHandler, hr, hv, ht, hres, h0, pageFetchEffects]
          exact hcp

/-- Witness for C8 at the spec's concrete limits: `0`, `101` and `abc` are
rejected 400 without effects; `all` dispatches to the paginated fetch. -/
theorem c8_limit_validation_witness :
    (("0" == "all") = false ∧
      (badgeHandler envOne emptyCache (some "a/b") (some "0") none none none).1.status
        = 400 ∧
      (badgeHandler envOne emptyCache (some "a/b") (some "0") none none none).2
        = noEffects emptyCache) ∧
    (("101" == "all") = false ∧
      (badgeHandler envOne emptyCache (some "a/b") (some "101") none none none).1.status
        = 400) ∧
    (("abc" == "all") = false ∧
      (badgeHandler envOne emptyCache (some "a/b") (some "abc") none none none).1.status
        = 400) ∧
    (emptyCache (allCacheKey "a/b" true) = none ∧
      (badgeHandler envOne emptyCache (some "a/b") (some "all") none (some "light")
        none).1.status ≠ 400 ∧
      (badgeHandler envOne emptyCache (some "a/b") (some "all") none (some "light")
        none).2.boundedCalls = 0 ∧
      1 ≤ (badgeHandler envOne emptyCache (some "a/b") (some "all") none (some "light")
        none).2.pageCalls) := by
  have hz : ∀ n : Int, parseIntJS "0" = some n → n < 1 ∨ n > 100 := by
    intro n h
    have h0 : parseIntJS "0" = some 0 := by decide
    rw [h0] at h
    injection h with h
    subst h
    left
    decide
  have h101 : ∀ n : Int, parseIntJS "101" = some n → n < 1 ∨ n > 100 := by
    intro n h
    have h0 : parseIntJS "101" = some 101 := by decide
    rw [h0] at h
    injection h with h
    subst h
    right
    decide
  have habc : ∀ n : Int, parseIntJS "abc" = some n → n < 1 ∨ n > 100 := by
    intro n h
    have h0 : parseIntJS "abc" = none := by decide
    rw [h0] at h
    exact Option.noConfusion h
  refine ⟨⟨by decide, ?_, ?_⟩, ⟨by decide, ?_⟩, ⟨by decide, ?_⟩, rfl, ?_, ?_, ?_⟩
  · exact (c8_limit_validation.1 envOne emptyCache (some "a/b") none none none "0"
      (by decide) hz).1
  · exact (c8_limit_validation.1 envOne emptyCache (some "a/b") none none none "0"
      (by decide) hz).2
  · exact (c8_limit_validation.1 envOne emptyCache (some "a/b") none none none "101"
      (by decide) h101).1
  · exact (c8_limit_validation.1 envOne emptyCache (some "a/b") none none none "abc"
      (by decide) habc).1
  · exact (c8_limit_validation.2 envOne emptyCache "a/b" "light"
      (by decide) (by decide) (by decide) rfl).1
  · exact (c8_limit_validation.2 envOne emptyCache "a/b" "light"
      (by decide) (by decide) (by decide) rfl).2.1
  · exact (c8_limit_validation.2 envOne emptyCache "a/b" "light"
      (by decide) (by decide) (by decide) rfl).2.2

/-! ## C9: empty contributor lists never reach the renderer -/

/-- C9 (confirmed).  On `/badge`, `/badge/all` and `/badge/fast` every list
ever passed to `generateSVGBadge` is non-empty (an empty fetch result is
answered 404 before rendering, shown here for each endpoint), and for
non-empty counts the grid divisor `cols` is positive, so the grid branch's
divisions and moduli by `cols` never see a zero divisor. -/
theorem c9_empty_guard :
    (∀ (env : Env) (cache : Cache) (repo limit style theme avatars : Option String),
      ∀ rc ∈ (badgeHandler env cache repo limit style theme avatars).2.renderCalls,
        rc.contributors ≠ []) ∧
    (∀ (env : Env) (cache : Cache) (repo style theme avatars : Option String),
      ∀ rc ∈ (badgeAllHandler env cache repo style theme avatars).2.renderCalls,
        rc.contributors ≠ []) ∧
    (∀ (env : Env) (cache : Cache) (repo limit style theme : Option String),
      ∀ rc ∈ (badgeFastHandler env cache repo limit style theme).2.renderCalls,
        rc.contributors ≠ []) ∧
    (∀ (env : Env) (cache : Cache) (r : String) (style theme avatars : Option String),
      (r == "") = false → validRepoFormat r = true →
      (getAllContributors env r (!((avatars.getD "true") == "false")) cache).result
        = .ok [] →
      (badgeAllHandler env cache (some r) style theme avatars).1
        = ⟨404, "No contributors found"⟩) ∧
    (∀ (env : Env) (cache : Cache) (r : String),
      (r == "") = false → validRepoFormat r = true →
      (getContributors env r 10 true cache).result = .ok [] →
      (badgeHandler env cache (some r) none none none none).1
        = ⟨404, "No contributors found"⟩) ∧
    (∀ (env : Env) (cache : Cache) (r : String),
      (r == "") = false → validRepoFormat r = true →
      (getContributors env r 10 false cache).result = .ok [] →
      (badgeFastHandler env cache (some r) none none none).1
        = ⟨404, "No contributors found"⟩) ∧
    (∀ n : Nat, 0 < n → 0 < gridCols n) := by
  have hp : parseIntJS "10" = some 10 := by decide
  refine ⟨?_, ?_, ?_, ?_, ?_, ?_, fun n hn => ceilSqrt_pos n hn⟩
  · intro env cache repo limit style theme avatars
    rcases repo with _ | r
    · simp [badgeHandler, noEffects]
    · cases h1 : (r == "")
      · cases h2 : validRepoFormat r
        · simp [badgeHandler, h1, h2, noEffects]
        · cases h3 : ((style.getD "horizontal") == "horizontal"
              || (style.getD "horizontal") == "grid")
          · simp [badgeHandler, h1, h2, h3, noEffects]
          · cases h4 : ((theme.getD "light") == "light" || (theme.getD "light") == "dark")
            · simp [badgeHandler, h1, h2, h3, h4, noEffects]
            · cases h5 : ((limit.getD "10") == "all")
              · rcases hpn : parseIntJS (limit.getD "10") with _ | n
                · simp [badgeHandler, h1, h2, h3, h4, h5, hpn, noEffects]
                · by_cases h6 : (n < 1 ∨ n > 100)
                  · simp [badgeHandler, h1, h2, h3, h4, h5, hpn, h6, noEffects]
                  · rcases hres : (getContributors env r n.toNat
                        (!((avatars.getD "true") == "false")) cache).result with msg | l
                    · simp [badgeHandler, h1, h2, h3, h4, h5, hpn, h6, hres,
                        boundedFetchEffects]
                    · cases h7 : (l.length == 0)
                      · intro rc hrc
                        simp [badgeHandler, h1, h2, h3, h4, h5, hpn, h6, hres, h7,
                          boundedFetchEffects, withRender] at hrc
                        have hl : l ≠ [] := by
                          intro hnil
                          rw [hnil] at h7
                          simp at h7
                        rw [hrc]
                        exact hl
                      · simp [badgeHandler, h1, h2, h3, h4, h5, hpn, h6, hres, h7,
                          boundedFetchEffects]
              · rcases hres : (getAllContributors env r
                    (!((avatars.getD "true") == "false")) cache).result with msg | l
                · simp [badgeHandler, h1, h2, h3, h4, h5, hres, pageFetchEffects]
                · cases h7 : (l.length == 0)
                  · intro rc hrc
                    simp [badgeHandler, h1, h2, h3, h4, h5, hres, h7,
                      pageFetchEffects, withRender] at hrc
                    have hl : l ≠ [] := by
                      intro hnil
                      rw [hnil] at h7
                      simp at h7
                    rw [hrc]
                    exact hl
                  · simp [badgeHandler, h1, h2, h3, h4, h5, hres, h7, pageFetchEffects]
      · simp [badgeHandler, h1, noEffects]
  · intro env cache repo style theme avatars
    rcases repo with _ | r
    · simp [badgeAllHandler, noEffects]
    · cases h1 : (r == "")
      · cases h2 : validRepoFormat r
        · simp [badgeAllHandler, h1, h2, noEffects]
        · rcases hres : (getAllContributors env r
              (!((avatars.getD "true") == "false")) cache).result with msg | l
          · simp [badgeAllHandler, h1, h2, hres, pageFetchEffects]
          · cases h7 : (l.length == 0)
            · intro rc hrc
              simp [badgeAllHandler, h1, h2, hres, h7, pageFetchEffects,
                withRender] at hrc
              have hl : l ≠ [] := by
                intro hnil
                rw [hnil] at h7
                simp at h7
              rw [hrc]
              exact hl
            · simp [badgeAllHandler, h1, h2, hres, h7, pageFetchEffects]
      · simp [badgeAllHandler, h1, noEffects]
  · intro env cache repo limit style theme
    rcases repo with _ | r
    · simp [badgeFastHandler, noEffects]
    · cases h1 : (r == "")
      · cases h2 : validRepoFormat r
        · simp [badgeFastHandler, h1, h2, noEffects]
        · cases h5 : ((limit.getD "10") == "all")
          · rcases hpn : parseIntJS (limit.getD "10") with _ | n
            · simp [badgeFastHandler, h1, h2, h5, hpn, noEffects]
            · by_cases h6 : (n < 1 ∨ n > 100)
              · simp [badgeFastHandler, h1, h2, h5, hpn, h6, noEffects]
              · rcases hres : (getContributors env r n.toNat false cache).result
                    with msg | l
                · simp [badgeFastHandler, h1, h2, h5, hpn, h6, hres,
                    boundedFetchEffects]
                · cases h7 : (l.length == 0)
                  · intro rc hrc
                    simp [badgeFastHandler, h1, h2, h5, hpn, h6, hres, h7,
                      boundedFetchEffects, withRender] at hrc
                    have hl : l ≠ [] := by
                      intro hnil
                      rw [hnil] at h7
                      simp at h7
                    rw [hrc]
                    exact hl
                  · simp [badgeFastHandler, h1, h2, h5, hpn, h6, hres, h7,
                      boundedFetchEffects]
          · rcases hres : (getAllContributors env r false cache).result with msg | l
            · simp [badgeFastHandler, h1, h2, h5, hres, pageFetchEffects]
            · cases h7 : (l.length == 0)
              · intro rc hrc
                simp [badgeFastHandler, h1, h2, h5, hres, h7, pageFetchEffects,
                  withRender] at hrc
                have hl : l ≠ [] := by
                  intro hnil
                  rw [hnil] at h7
                  simp at h7
                rw [hrc]
                exact hl
              · simp [badgeFastHandler, h1, h2, h5, hres, h7, pageFetchEffects]
      · simp [badgeFastHandler, h1, noEffects]
  · intro env cache r style theme avatars hr hv hres
    simp [badgeAllHandler, hr, hv, hres]
  · intro env cache r hr hv hres
    simp [badgeHandler, hr, hv, hp, hres]
  · intro env cache r hr hv hres
    simp [badgeFastHandler, hr, hv, hp, hres]

/-- Witness for C9: with an upstream returning zero contributors,
`/badge/all` answers 404; and the grid divisor at count 5 is positive. -/
theorem c9_empty_guard_witness :
    (("a/b" == "") = false ∧ validRepoFormat "a/b" = true ∧
      (getAllContributors envEmptyPages "a/b" true emptyCache).result = .ok [] ∧
      (badgeAllHandler envEmptyPages emptyCache (some "a/b") none none none).1
        = ⟨404, "No contributors found"⟩) ∧
    (0 < 5 ∧ 0 < gridCols 5) :=
  ⟨⟨by decide, by decide, rfl,
    c9_empty_guard.2.2.2.1 envEmptyPages emptyCache "a/b" none none none
      (by decide) (by decide) rfl⟩,
   ⟨by decide, c9_empty_guard.2.2.2.2.2.2 5 (by decide)⟩⟩

end ContribBadge
